import Mathlib

/-
  Verification of the message feed ingestion, routing and broadcast subsystem
  (MessageFeedsController) of dynamic-situational-awareness-qt.

  The controller state and its operations are embedded shallowly from
  src/Shared/messages/MessageFeedsController.cpp.  Collaborator classes that
  are only declared there (Message, MessageListener, LocationBroadcast,
  MessageFeedListModel) are modelled from the specification where noted.
  Qt objects are modelled by records carrying an allocation identifier so that
  distinct `new` allocations are distinguishable; signal emission is modelled
  by an explicit event list on the state.
-/

namespace DSA

/-- Parsed view over a raw datagram: a message type, a message identifier and
an emptiness predicate.  Modelled from the spec: Message itself (parsing,
payload) lives outside the controller source; ingestion only reads
`messageType`, `messageId` and `isEmpty`, so the model keeps exactly those.
An unparseable datagram yields a Message with `isEmpty = true`. -/
structure Message where
  messageType : String
  messageId : String
  isEmpty : Bool
deriving DecidableEq

/-- Modelled from the spec: LocationBroadcast state (SelfBroadcastState of the
data model): enabled flag, frequency, configured message type and UDP port,
and the identifier of the last sent broadcast message (none before any send).
`LocationBroadcast::message().messageId()` is modelled by
`lastSentMessageId`, the sole state consumed for self-suppression. -/
structure LocationBroadcast where
  enabled : Bool
  frequency : Int
  messageType : String
  udpPort : Int
  lastSentMessageId : Option String
deriving DecidableEq

/-- A loaded DictionarySymbolStyle: specification type, style file path, and
an allocation identifier distinguishing loaded instances. -/
structure Style where
  specificationType : String
  stylePath : String
  styleId : Nat
deriving DecidableEq

/-- The two function-local static DictionarySymbolStyle pointers of
MessageFeedsController::createRenderer, initially null. -/
structure StyleCache where
  mil2525c : Option Style
  mil2525d : Option Style
deriving DecidableEq

/-- Allocation state threaded through object creation: the static style cache
and a counter supplying fresh allocation identifiers for `new`-ed objects. -/
structure AllocState where
  styleCache : StyleCache
  nextId : Nat
deriving DecidableEq

/-- Result of createRenderer: either a DictionaryRenderer sharing a
DictionarySymbolStyle, or a SimpleRenderer over a PictureMarkerSymbol built
from an image path with explicit width and height.  `rid` is the renderer
object's own allocation identifier. -/
inductive Renderer where
  | dictionaryRenderer (style : Style) (rid : Nat)
  | simpleRenderer (imagePath : String) (width : Nat) (height : Nat) (rid : Nat)
deriving DecidableEq

/-- A MessagesOverlay: the renderer it was constructed with and its
allocation identifier (the opaque overlay sink handle). -/
structure MessagesOverlay where
  renderer : Renderer
  overlayId : Nat
deriving DecidableEq

/-- A MessageFeed: feed name, message type, and the overlay sink it routes
to, exactly the three constructor arguments used in setProperties. -/
structure MessageFeed where
  feedName : String
  feedType : String
  overlay : MessagesOverlay
deriving DecidableEq

/-- A MessageListener object: its allocation identifier (standing for the
pointer identity) and the port its UDP socket was asked to bind; the bind
result is not recorded because the controller never reads it. -/
structure MessageListener where
  lid : Nat
  boundPort : Int
deriving DecidableEq

/-- Signals emitted by the controller, in emission order. -/
inductive Event where
  | propertyChanged (propertyName : String) (propertyValue : String)
  | locationBroadcastEnabledChanged
  | locationBroadcastFrequencyChanged
deriving DecidableEq

/-- The MessageFeedsController state: the registered listener list
`m_messageListeners`, the set of live messageReceived signal connections
(one entry, carrying the listener identifier, per `connect` call), the feed
list model `m_messageFeeds`, the owned LocationBroadcast, `m_resourcePath`,
the allocation state, a fresh-id source for listeners, and the emitted
events. -/
structure ControllerState where
  messageListeners : List MessageListener
  connections : List Nat
  messageFeeds : List MessageFeed
  locationBroadcast : LocationBroadcast
  resourcePath : String
  alloc : AllocState
  nextListenerId : Nat
  events : List Event
deriving DecidableEq

/-- Property name constant `RESOURCE_DIRECTORY_PROPERTYNAME`. -/
def RESOURCE_DIRECTORY_PROPERTYNAME : String := "ResourceDirectory"

/-- Whether a character is a decimal digit. -/
def isDigitChar (c : Char) : Bool := 48 ≤ c.toNat && c.toNat ≤ 57

/-- Value of a decimal digit character. -/
def digitVal (c : Char) : Nat := c.toNat - 48

/-- Natural number denoted by a list of decimal digit characters. -/
def natOfDigits (cs : List Char) : Nat :=
  cs.foldl (fun n c => 10 * n + digitVal c) 0

/-- Model of QString::toInt: an optional sign followed by decimal digits
gives the signed value; any other string fails the conversion and gives 0. -/
def qstringToInt (s : String) : Int :=
  match s.data with
  | [] => 0
  | c :: rest =>
    if c == '-' then
      if !rest.isEmpty && rest.all isDigitChar then -(natOfDigits rest : Int) else 0
    else if c == '+' then
      if !rest.isEmpty && rest.all isDigitChar then (natOfDigits rest : Int) else 0
    else if (c :: rest).all isDigitChar then (natOfDigits (c :: rest) : Int) else 0

/-- ASCII lower-casing of one character (the renderer specification
standards are ASCII names). -/
def lowerChar (c : Char) : Char :=
  if 65 ≤ c.toNat ∧ c.toNat ≤ 90 then Char.ofNat (c.toNat + 32) else c

/-- Model of QString::compare with Qt::CaseInsensitive returning 0:
case-insensitive equality, via character-wise ASCII lowering. -/
def ciEq (a b : String) : Bool := a.data.map lowerChar == b.data.map lowerChar

/-- Image resource directory used for non-standard renderer specifications
(the `:/Resources/icons/xhdpi/message/%1` pattern). -/
def iconBasePath : String := ":/Resources/icons/xhdpi/message/"

/-- MessageFeedsController::createRenderer.  A rendererInfo equal
(case-insensitively) to "mil2525c" or "mil2525d" resolves to a
DictionaryRenderer over the corresponding static DictionarySymbolStyle,
loading it into the cache on first use; any other rendererInfo builds a
fresh PictureMarkerSymbol with width and height 40 wrapped in a
SimpleRenderer. -/
def createRenderer (resourcePath : String) (a : AllocState) (rendererInfo : String) :
    Renderer × AllocState :=
  if ciEq rendererInfo "mil2525c" then
    match a.styleCache.mil2525c with
    | none =>
      let style : Style :=
        ⟨"mil2525c_b2", resourcePath ++ "/styles/mil2525c_b2.stylx", a.nextId⟩
      (Renderer.dictionaryRenderer style (a.nextId + 1),
        ⟨{ a.styleCache with mil2525c := some style }, a.nextId + 2⟩)
    | some style =>
      (Renderer.dictionaryRenderer style a.nextId, ⟨a.styleCache, a.nextId + 1⟩)
  else if ciEq rendererInfo "mil2525d" then
    match a.styleCache.mil2525d with
    | none =>
      let style : Style :=
        ⟨"mil2525d", resourcePath ++ "/styles/mil2525d.stylx", a.nextId⟩
      (Renderer.dictionaryRenderer style (a.nextId + 1),
        ⟨{ a.styleCache with mil2525d := some style }, a.nextId + 2⟩)
    | some style =>
      (Renderer.dictionaryRenderer style a.nextId, ⟨a.styleCache, a.nextId + 1⟩)
  else
    (Renderer.simpleRenderer (iconBasePath ++ rendererInfo) 40 40 a.nextId,
      ⟨a.styleCache, a.nextId + 1⟩)

/-- Whether a renderer specification names one of the two symbology
standards handled by the cached branches of createRenderer. -/
def isStandardSpec (s : String) : Bool :=
  ciEq s "mil2525c" || ciEq s "mil2525d"

/-- The shared style resource a renderer references, if any. -/
def rendererStyle : Renderer → Option Style
  | Renderer.dictionaryRenderer style _ => some style
  | Renderer.simpleRenderer _ _ _ _ => none

/-- MessageFeedsController::addMessageListener.  A null listener returns
immediately; otherwise the listener is appended to `m_messageListeners` and
its messageReceived signal is connected to the ingestion lambda (each call
adds one more connection). -/
def addMessageListener (st : ControllerState) (l : Option MessageListener) :
    ControllerState :=
  match l with
  | none => st
  | some listener =>
    { st with
        messageListeners := st.messageListeners ++ [listener],
        connections := st.connections ++ [listener.lid] }

/-- Model of QList::removeOne: remove the first element whose identity
matches, if any. -/
def removeOne (xs : List MessageListener) (lid : Nat) : List MessageListener :=
  match xs with
  | [] => []
  | x :: rest => if x.lid == lid then rest else x :: removeOne rest lid

/-- MessageFeedsController::removeMessageListener.  A null listener returns
immediately; otherwise the first matching list entry is removed and all
messageReceived connections from that listener to the controller are
disconnected. -/
def removeMessageListener (st : ControllerState) (l : Option MessageListener) :
    ControllerState :=
  match l with
  | none => st
  | some listener =>
    { st with
        messageListeners := removeOne st.messageListeners listener.lid,
        connections := st.connections.filter (fun c => !(c == listener.lid)) }

/-- Modelled from the spec: MessageFeedListModel::messageFeedByType — lookup
of a feed by message type; on duplicate types the last-registered feed wins
(§3: "last-registered wins"), none when no feed matches. -/
def messageFeedByType (feeds : List MessageFeed) (t : String) : Option MessageFeed :=
  feeds.reverse.find? (fun f => f.feedType == t)

/-- Outcome of one invocation of the ingestion lambda on a parsed message:
dropped because empty, suppressed as our own broadcast, dropped because no
feed matches the type, or routed to a feed's overlay sink (the sink's
addMessage is invoked exactly for `routed`). -/
inductive IngestOutcome where
  | droppedEmpty
  | suppressed
  | noFeed
  | routed (overlayId : Nat)
deriving DecidableEq

/-- Body of the messageReceived lambda connected in addMessageListener,
applied to the Message the datagram parses to: drop if empty; then, if the
location broadcast is enabled and the incoming identifier equals the last
sent broadcast identifier, suppress; then look up the feed by type, dropping
when none matches; otherwise add the message to that feed's overlay. -/
def ingestMessage (st : ControllerState) (m : Message) : IngestOutcome :=
  if m.isEmpty then IngestOutcome.droppedEmpty
  else if st.locationBroadcast.enabled
          && (st.locationBroadcast.lastSentMessageId == some m.messageId) then
    IngestOutcome.suppressed
  else
    match messageFeedByType st.messageFeeds m.messageType with
    | none => IngestOutcome.noFeed
    | some feed => IngestOutcome.routed feed.overlay.overlayId

/-- The overlay sink invoked by one ingestion outcome, if any. -/
def deliveredOverlay : IngestOutcome → Option Nat
  | IngestOutcome.routed oid => some oid
  | _ => none

/-- Delivery of one datagram through the listener with identifier `lid`: the
listener emits messageReceived once, which invokes the ingestion lambda once
per live connection from that listener, each invocation on the same parsed
message. -/
def deliverDatagram (st : ControllerState) (lid : Nat) (m : Message) :
    List IngestOutcome :=
  (st.connections.filter (fun c => c == lid)).map (fun _ => ingestMessage st m)

/-- MessageFeedsController::setResourcePath: no-op when unchanged, otherwise
store the new path and emit propertyChanged. -/
def setResourcePath (st : ControllerState) (resourcePath : String) : ControllerState :=
  if resourcePath == st.resourcePath then st
  else
    { st with
        resourcePath := resourcePath,
        events := st.events
          ++ [Event.propertyChanged RESOURCE_DIRECTORY_PROPERTYNAME resourcePath] }

/-- The MessageFeedUdpPorts loop of setProperties: for each configured port
string, construct a QUdpSocket bound to `udpPort.toInt()` (the bind result is
ignored by the controller), construct a MessageListener over it, and register
it with addMessageListener. -/
def addUdpListeners (st : ControllerState) : List String → ControllerState
  | [] => st
  | udpPort :: rest =>
    let listener : MessageListener := ⟨st.nextListenerId, qstringToInt udpPort⟩
    addUdpListeners
      (addMessageListener { st with nextListenerId := st.nextListenerId + 1 }
        (some listener)) rest

/-- Model of QString::split on ":": the colon-separated parts of a
character list, keeping empty parts (an empty input gives one empty part,
matching Qt's default KeepEmptyParts behaviour). -/
def splitOnColon : List Char → List (List Char)
  | [] => [[]]
  | c :: rest =>
    if c == ':' then [] :: splitOnColon rest
    else
      match splitOnColon rest with
      | [] => [[c]]
      | h :: t => (c :: h) :: t

/-- Split of one MessageFeeds configuration entry on ":"; entries with a part
count different from 3 yield none (skipped by the loop), a 3-part entry
yields (name, type, rendererInfo). -/
def parseFeedEntry (entry : String) : Option (String × String × String) :=
  match splitOnColon entry.data with
  | [a, b, c] => some (String.mk a, String.mk b, String.mk c)
  | _ => none

/-- The MessageFeeds loop of setProperties: each entry is split on ":"; a
malformed entry (size ≠ 3) is skipped; a well-formed one creates a renderer
from part 3, a MessagesOverlay over it, and a MessageFeed from parts 1 and 2
appended to the feed list model. -/
def addFeeds (st : ControllerState) : List String → ControllerState
  | [] => st
  | entry :: rest =>
    match parseFeedEntry entry with
    | none => addFeeds st rest
    | some (feedName, feedType, rendererInfo) =>
      let pr := createRenderer st.resourcePath st.alloc rendererInfo
      let overlay : MessagesOverlay := ⟨pr.1, pr.2.nextId⟩
      let feed : MessageFeed := ⟨feedName, feedType, overlay⟩
      addFeeds
        { st with
            alloc := ⟨pr.2.styleCache, pr.2.nextId + 1⟩,
            messageFeeds := st.messageFeeds ++ [feed] } rest

/-- The recognized configuration values of setProperties, pre-extracted from
the QVariantMap: a missing key gives the empty string / empty list, matching
QVariant's toString / toStringList on an invalid variant. -/
structure Properties where
  resourceDirectory : String
  messageFeedUdpPorts : List String
  messageFeeds : List String
  locationBroadcastConfig : List String
deriving DecidableEq

/-- MessageFeedsController::setProperties: set the resource path, create one
listener per configured UDP port, create one feed per well-formed feed
entry, then apply the location broadcast configuration only when it has
exactly two elements (message type then port).  setMessageType and
setUdpPort on the broadcast are modelled from the spec as plain setters of
SelfBroadcastState. -/
def setProperties (st : ControllerState) (props : Properties) : ControllerState :=
  let st1 := setResourcePath st props.resourceDirectory
  let st2 := addUdpListeners st1 props.messageFeedUdpPorts
  let st3 := addFeeds st2 props.messageFeeds
  match props.locationBroadcastConfig with
  | [msgType, port] =>
    { st3 with
        locationBroadcast :=
          { st3.locationBroadcast with
              messageType := msgType,
              udpPort := qstringToInt port } }
  | _ => st3

/-- Modelled from the spec: LocationBroadcast::setEnabled — switches the
Disabled/Enabled state machine; the timer it starts or cancels is abstracted
away, the remaining broadcast state is untouched. -/
def lbSetEnabled (lb : LocationBroadcast) (enabled : Bool) : LocationBroadcast :=
  { lb with enabled := enabled }

/-- MessageFeedsController::setLocationBroadcastEnabled: no-op when the
broadcast already has the requested state, otherwise apply it and emit
locationBroadcastEnabledChanged. -/
def setLocationBroadcastEnabled (st : ControllerState) (enabled : Bool) :
    ControllerState :=
  if st.locationBroadcast.enabled == enabled then st
  else
    { st with
        locationBroadcast := lbSetEnabled st.locationBroadcast enabled,
        events := st.events ++ [Event.locationBroadcastEnabledChanged] }

/-- Concrete allocation state with an empty style cache. -/
def allocW : AllocState := ⟨⟨none, none⟩, 0⟩

/-- Concrete disabled broadcast state. -/
def lbDisabledW : LocationBroadcast := ⟨false, 3000, "", 0, none⟩

/-- Concrete controller state just after construction: no listeners, no
feeds, broadcast disabled. -/
def initState : ControllerState := ⟨[], [], [], lbDisabledW, "", allocW, 0, []⟩

/-- Concrete listener used in counterexamples and witnesses. -/
def listenerW : MessageListener := ⟨0, 45678⟩

/-- Concrete non-empty message of type "friendly". -/
def msgFriendlyW : Message := ⟨"friendly", "m1", false⟩

/-- Claim C9: registering or removing a null listener pointer is a complete
no-op on the controller state. -/
theorem null_listener_noop (st : ControllerState) :
    addMessageListener st none = st ∧ removeMessageListener st none = st :=
  ⟨rfl, rfl⟩

/-- Claim C1 as stated is false on the code: starting from a fresh
controller, adding the same listener twice and then delivering one datagram
through it invokes the ingestion path twice, not exactly once. -/
theorem double_registration_cex :
    ¬ ((deliverDatagram
          (addMessageListener (addMessageListener initState (some listenerW))
            (some listenerW))
          listenerW.lid msgFriendlyW).length = 1) := by
  decide

/-- Claim C1 (amended): addMessageListener is not idempotent — each call
appends the listener and adds one more messageReceived connection, so after
adding the same listener twice, one datagram delivered through it invokes
the ingestion path exactly two more times than the prior connection count
for that listener. -/
theorem double_registration_delivery_count (st : ControllerState)
    (l : MessageListener) (m : Message) :
    (deliverDatagram
        (addMessageListener (addMessageListener st (some l)) (some l))
        l.lid m).length
      = st.connections.count l.lid + 2 := by
  simp [deliverDatagram, addMessageListener, List.filter_append,
    List.count_eq_countP, List.countP_eq_length_filter]

/-- Claim C3: a message that parses as empty is dropped at the very first
check of the ingestion lambda — the outcome is droppedEmpty (reached before
the self-suppression check and the registry lookup), no overlay sink is
invoked, and every connection's invocation for such a datagram has that same
outcome. -/
theorem empty_message_dropped (st : ControllerState) (lid : Nat) (m : Message)
    (h : m.isEmpty = true) :
    ingestMessage st m = IngestOutcome.droppedEmpty
    ∧ deliveredOverlay (ingestMessage st m) = none
    ∧ ∀ o ∈ deliverDatagram st lid m, o = IngestOutcome.droppedEmpty := by
  have h1 : ingestMessage st m = IngestOutcome.droppedEmpty := by
    simp [ingestMessage, h]
  refine ⟨h1, by simp [h1, deliveredOverlay], ?_⟩
  intro o ho
  simp only [deliverDatagram, List.mem_map] at ho
  obtain ⟨c, -, rfl⟩ := ho
  exact h1

/-- Concrete empty message. -/
def emptyMsgW : Message := ⟨"", "", true⟩

/-- Claim C3 witness: the empty message is dropped with no overlay delivery
on a concrete state. -/
theorem empty_message_dropped_witness :
    emptyMsgW.isEmpty = true
    ∧ ingestMessage initState emptyMsgW = IngestOutcome.droppedEmpty
    ∧ deliveredOverlay (ingestMessage initState emptyMsgW) = none :=
  ⟨rfl, (empty_message_dropped initState 0 emptyMsgW rfl).1,
    (empty_message_dropped initState 0 emptyMsgW rfl).2.1⟩

/-- Claim C8: a non-empty, non-suppressed message whose type matches no feed
is silently dropped — the outcome is noFeed, and no overlay sink is
invoked. -/
theorem unmatched_type_dropped (st : ControllerState) (m : Message)
    (h1 : m.isEmpty = false)
    (h2 : (st.locationBroadcast.enabled
            && (st.locationBroadcast.lastSentMessageId == some m.messageId)) = false)
    (h3 : messageFeedByType st.messageFeeds m.messageType = none) :
    ingestMessage st m = IngestOutcome.noFeed
    ∧ deliveredOverlay (ingestMessage st m) = none := by
  simp [ingestMessage, h1, h2, h3, deliveredOverlay]

/-- Concrete controller state with one "friendly" feed and the broadcast
enabled with last sent identifier "b1". -/
def stFeedW : ControllerState :=
  ⟨[], [],
    [⟨"Friendly", "friendly",
      ⟨Renderer.simpleRenderer (iconBasePath ++ "icon_a.png") 40 40 0, 1⟩⟩],
    ⟨true, 3000, "position", 45679, some "b1"⟩, "", ⟨⟨none, none⟩, 2⟩, 0, []⟩

/-- Concrete non-empty message of type "hostile", matching no feed. -/
def msgHostileW : Message := ⟨"hostile", "m2", false⟩

/-- Claim C8 witness: a "hostile" message on a state with only a "friendly"
feed is dropped with outcome noFeed. -/
theorem unmatched_type_dropped_witness :
    msgHostileW.isEmpty = false
    ∧ (stFeedW.locationBroadcast.enabled
        && (stFeedW.locationBroadcast.lastSentMessageId == some msgHostileW.messageId))
        = false
    ∧ messageFeedByType stFeedW.messageFeeds msgHostileW.messageType = none
    ∧ ingestMessage stFeedW msgHostileW = IngestOutcome.noFeed
    ∧ deliveredOverlay (ingestMessage stFeedW msgHostileW) = none :=
  ⟨rfl, by decide, by decide,
    unmatched_type_dropped stFeedW msgHostileW rfl (by decide) (by decide)⟩

/-- Claim C6: setLocationBroadcastEnabled with the current state is a
complete no-op emitting nothing; with the opposite state it flips the
broadcast's enabled flag and emits exactly one
locationBroadcastEnabledChanged event. -/
theorem setLocationBroadcastEnabled_idem (st : ControllerState) (b : Bool) :
    (st.locationBroadcast.enabled = b → setLocationBroadcastEnabled st b = st)
    ∧ (st.locationBroadcast.enabled = !b →
        (setLocationBroadcastEnabled st b).locationBroadcast.enabled = b
        ∧ (setLocationBroadcastEnabled st b).events
            = st.events ++ [Event.locationBroadcastEnabledChanged]) := by
  constructor
  · intro h
    simp [setLocationBroadcastEnabled, h]
  · intro h
    have hne : (st.locationBroadcast.enabled == b) = false := by
      rw [h]; cases b <;> decide
    simp [setLocationBroadcastEnabled, hne, lbSetEnabled]

/-- Concrete controller state with the broadcast enabled. -/
def stEnabledW : ControllerState :=
  ⟨[], [], [], ⟨true, 3000, "position", 45679, none⟩, "", allocW, 0, []⟩

/-- Claim C6 witness: on a concrete enabled state, setting enabled again
changes nothing; disabling flips the flag and emits one event. -/
theorem setLocationBroadcastEnabled_idem_witness :
    setLocationBroadcastEnabled stEnabledW true = stEnabledW
    ∧ ((setLocationBroadcastEnabled stEnabledW false).locationBroadcast.enabled = false
      ∧ (setLocationBroadcastEnabled stEnabledW false).events
          = stEnabledW.events ++ [Event.locationBroadcastEnabledChanged]) :=
  ⟨(setLocationBroadcastEnabled_idem stEnabledW true).1 rfl,
    (setLocationBroadcastEnabled_idem stEnabledW false).2 rfl⟩

/-- Claim C2: for a non-empty parsed message, ingestion suppresses it if and
only if the location broadcast is enabled and the incoming identifier equals
the last sent broadcast identifier; and whenever a feed matches the message
type, the message is routed to that feed's overlay if and only if that
suppression condition fails (so a different identifier with the same type is
routed normally). -/
theorem suppression_iff_lastSent (st : ControllerState) (m : Message)
    (h : m.isEmpty = false) :
    (ingestMessage st m = IngestOutcome.suppressed ↔
      st.locationBroadcast.enabled = true
        ∧ st.locationBroadcast.lastSentMessageId = some m.messageId)
    ∧ (∀ feed, messageFeedByType st.messageFeeds m.messageType = some feed →
        (ingestMessage st m = IngestOutcome.routed feed.overlay.overlayId ↔
          ¬(st.locationBroadcast.enabled = true
            ∧ st.locationBroadcast.lastSentMessageId = some m.messageId))) := by
  cases hb : (st.locationBroadcast.enabled
      && (st.locationBroadcast.lastSentMessageId == some m.messageId)) with
  | true =>
    rw [Bool.and_eq_true, beq_iff_eq] at hb
    constructor
    · simp [ingestMessage, h, hb]
    · intro feed hf
      simp [ingestMessage, h, hb]
  | false =>
    have hnot : ¬(st.locationBroadcast.enabled = true
        ∧ st.locationBroadcast.lastSentMessageId = some m.messageId) := by
      intro hcon
      rw [hcon.1, hcon.2] at hb
      simp at hb
    constructor
    · cases hf : messageFeedByType st.messageFeeds m.messageType with
      | none => simp [ingestMessage, h, hb, hf, hnot]
      | some feed => simp [ingestMessage, h, hb, hf, hnot]
    · intro feed hf
      simp [ingestMessage, h, hb, hf, hnot]

/-- Concrete non-empty message of type "friendly" with identifier "b2",
distinct from the last sent broadcast identifier "b1" of stFeedW. -/
def msgOtherIdW : Message := ⟨"friendly", "b2", false⟩

/-- Claim C2 witness: with the broadcast enabled and last sent identifier
"b1", a "friendly" message with identifier "b2" is routed to the matching
feed's overlay. -/
theorem suppression_iff_lastSent_witness :
    msgOtherIdW.isEmpty = false
    ∧ messageFeedByType stFeedW.messageFeeds msgOtherIdW.messageType
        = some ⟨"Friendly", "friendly",
            ⟨Renderer.simpleRenderer (iconBasePath ++ "icon_a.png") 40 40 0, 1⟩⟩
    ∧ (ingestMessage stFeedW msgOtherIdW
        = IngestOutcome.routed
            (MessageFeed.overlay ⟨"Friendly", "friendly",
              ⟨Renderer.simpleRenderer (iconBasePath ++ "icon_a.png") 40 40 0, 1⟩⟩).overlayId ↔
        ¬(stFeedW.locationBroadcast.enabled = true
          ∧ stFeedW.locationBroadcast.lastSentMessageId = some msgOtherIdW.messageId)) :=
  ⟨rfl, by decide,
    (suppression_iff_lastSent stFeedW msgOtherIdW rfl).2
      ⟨"Friendly", "friendly",
        ⟨Renderer.simpleRenderer (iconBasePath ++ "icon_a.png") 40 40 0, 1⟩⟩
      (by decide)⟩

/-- Claim C7: a renderer specification naming one of the two symbology
standards (case-insensitively) resolves to a dictionary renderer over a
shared style — present after the first resolution, and a second resolution
of the same specification returns the identical style instance while
leaving the style cache untouched; any other specification yields a fresh
uncached SimpleRenderer over a 40x40 picture marker built from the icon
path, consuming exactly one allocation identifier. -/
theorem createRenderer_caching (rp : String) (a : AllocState) (s : String) :
    (isStandardSpec s = true →
      (rendererStyle (createRenderer rp a s).1).isSome = true
      ∧ rendererStyle (createRenderer rp (createRenderer rp a s).2 s).1
          = rendererStyle (createRenderer rp a s).1
      ∧ (createRenderer rp (createRenderer rp a s).2 s).2.styleCache
          = (createRenderer rp a s).2.styleCache)
    ∧ (isStandardSpec s = false →
      (createRenderer rp a s).1
          = Renderer.simpleRenderer (iconBasePath ++ s) 40 40 a.nextId
      ∧ (createRenderer rp a s).2 = ⟨a.styleCache, a.nextId + 1⟩) := by
  constructor
  · intro hs
    by_cases hc : ciEq s "mil2525c" = true
    · cases hcc : a.styleCache.mil2525c with
      | none => simp [createRenderer, hc, hcc, rendererStyle]
      | some style => simp [createRenderer, hc, hcc, rendererStyle]
    · have hd : ciEq s "mil2525d" = true := by
        have := hs
        simp [isStandardSpec, hc] at this
        exact this
      have hc' : ciEq s "mil2525c" = false := by
        cases hval : ciEq s "mil2525c" with
        | false => rfl
        | true => exact absurd hval hc
      cases hcd : a.styleCache.mil2525d with
      | none => simp [createRenderer, hc', hd, hcd, rendererStyle]
      | some style => simp [createRenderer, hc', hd, hcd, rendererStyle]
  · intro hs
    have hc : ciEq s "mil2525c" = false := by
      cases hval : ciEq s "mil2525c" with
      | false => rfl
      | true => simp [isStandardSpec, hval] at hs
    have hd : ciEq s "mil2525d" = false := by
      cases hval : ciEq s "mil2525d" with
      | false => rfl
      | true => simp [isStandardSpec, hval] at hs
    simp [createRenderer, hc, hd]

/-- Claim C7 witness: resolving "mil2525c" twice from an empty cache returns
the identical shared style both times without a second load, and resolving
the non-standard "icon_a.png" yields a fresh 40x40 picture-marker renderer
with the cache untouched. -/
theorem createRenderer_caching_witness :
    isStandardSpec "mil2525c" = true
    ∧ ((rendererStyle (createRenderer "" allocW "mil2525c").1).isSome = true
      ∧ rendererStyle
          (createRenderer "" (createRenderer "" allocW "mil2525c").2 "mil2525c").1
          = rendererStyle (createRenderer "" allocW "mil2525c").1
      ∧ (createRenderer "" (createRenderer "" allocW "mil2525c").2 "mil2525c").2.styleCache
          = (createRenderer "" allocW "mil2525c").2.styleCache)
    ∧ isStandardSpec "icon_a.png" = false
    ∧ ((createRenderer "" allocW "icon_a.png").1
          = Renderer.simpleRenderer (iconBasePath ++ "icon_a.png") 40 40 allocW.nextId
      ∧ (createRenderer "" allocW "icon_a.png").2
          = ⟨allocW.styleCache, allocW.nextId + 1⟩) :=
  ⟨by decide, (createRenderer_caching "" allocW "mil2525c").1 (by decide),
    by decide, (createRenderer_caching "" allocW "icon_a.png").2 (by decide)⟩

/-- One feed as constructed by the MessageFeeds loop from a parsed
(name, type, rendererInfo) entry, paired with the allocation state after its
renderer and overlay are created. -/
def builtFeed (resourcePath : String) (a : AllocState) (e : String × String × String) :
    MessageFeed × AllocState :=
  let pr := createRenderer resourcePath a e.2.2
  (⟨e.1, e.2.1, ⟨pr.1, pr.2.nextId⟩⟩, ⟨pr.2.styleCache, pr.2.nextId + 1⟩)

/-- The feeds the MessageFeeds loop constructs from a list of parsed
entries, threading the allocation state left to right. -/
def buildFeeds (resourcePath : String) (a : AllocState) :
    List (String × String × String) → List MessageFeed
  | [] => []
  | e :: rest =>
    (builtFeed resourcePath a e).1
      :: buildFeeds resourcePath (builtFeed resourcePath a e).2 rest

/-- The MessageFeeds loop leaves the listener list, the connections, the
location broadcast, the resource path and the emitted events untouched. -/
theorem addFeeds_frame (es : List String) (st : ControllerState) :
    (addFeeds st es).messageListeners = st.messageListeners
    ∧ (addFeeds st es).connections = st.connections
    ∧ (addFeeds st es).locationBroadcast = st.locationBroadcast
    ∧ (addFeeds st es).resourcePath = st.resourcePath
    ∧ (addFeeds st es).events = st.events := by
  induction es generalizing st with
  | nil => exact ⟨rfl, rfl, rfl, rfl, rfl⟩
  | cons e rest ih =>
    cases hp : parseFeedEntry e with
    | none => simpa [addFeeds, hp] using ih st
    | some p =>
      obtain ⟨n, t, r⟩ := p
      simpa [addFeeds, hp] using ih _

/-- The MessageFeeds loop appends exactly the feeds built from the
well-formed entries, in order, to the feed list model. -/
theorem addFeeds_messageFeeds (es : List String) (st : ControllerState) :
    (addFeeds st es).messageFeeds
      = st.messageFeeds
        ++ buildFeeds st.resourcePath st.alloc (es.filterMap parseFeedEntry) := by
  induction es generalizing st with
  | nil => simp [addFeeds, buildFeeds]
  | cons e rest ih =>
    cases hp : parseFeedEntry e with
    | none => simp [addFeeds, hp, List.filterMap_cons, ih]
    | some p =>
      obtain ⟨n, t, r⟩ := p
      simp [addFeeds, hp, List.filterMap_cons, ih, buildFeeds, builtFeed]

/-- buildFeeds produces exactly one feed per parsed entry, carrying that
entry's name and type. -/
theorem buildFeeds_shape (l : List (String × String × String))
    (rp : String) (a : AllocState) :
    (buildFeeds rp a l).length = l.length
    ∧ (buildFeeds rp a l).map (fun f => (f.feedName, f.feedType))
        = l.map (fun e => (e.1, e.2.1)) := by
  induction l generalizing a with
  | nil => simp [buildFeeds]
  | cons e rest ih =>
    refine ⟨?_, ?_⟩
    · simp [buildFeeds, (ih _).1]
    · simp [buildFeeds, builtFeed, (ih _).2]

/-- Claim C4: the MessageFeeds loop skips every entry that does not split
into exactly 3 colon-separated parts and appends, for every well-formed
entry regardless of its position among malformed ones, exactly one feed
whose name, type and renderer come from the entry's three parts (the
renderer via createRenderer on part 3, inside builtFeed). -/
theorem feed_config_entries (st : ControllerState) (entries : List String) :
    (addFeeds st entries).messageFeeds
      = st.messageFeeds
        ++ buildFeeds st.resourcePath st.alloc (entries.filterMap parseFeedEntry)
    ∧ ∀ rp a l, (buildFeeds rp a l).length = l.length
      ∧ (buildFeeds rp a l).map (fun f => (f.feedName, f.feedType))
          = l.map (fun e => (e.1, e.2.1)) :=
  ⟨addFeeds_messageFeeds entries st, fun rp a l => buildFeeds_shape l rp a⟩

/-- setResourcePath changes only the resource path and the event list. -/
theorem setResourcePath_frame (st : ControllerState) (p : String) :
    (setResourcePath st p).messageListeners = st.messageListeners
    ∧ (setResourcePath st p).connections = st.connections
    ∧ (setResourcePath st p).messageFeeds = st.messageFeeds
    ∧ (setResourcePath st p).locationBroadcast = st.locationBroadcast
    ∧ (setResourcePath st p).alloc = st.alloc := by
  unfold setResourcePath
  split <;> exact ⟨rfl, rfl, rfl, rfl, rfl⟩

/-- The MessageFeedUdpPorts loop appends one listener per entry, bound to
the entry's integer conversion, and one connection per entry; it leaves the
feeds and the location broadcast untouched. -/
theorem addUdpListeners_shape (ps : List String) (st : ControllerState) :
    (addUdpListeners st ps).messageListeners.map MessageListener.boundPort
      = st.messageListeners.map MessageListener.boundPort ++ ps.map qstringToInt
    ∧ (addUdpListeners st ps).connections.length
      = st.connections.length + ps.length
    ∧ (addUdpListeners st ps).messageFeeds = st.messageFeeds
    ∧ (addUdpListeners st ps).locationBroadcast = st.locationBroadcast
    ∧ (addUdpListeners st ps).resourcePath = st.resourcePath
    ∧ (addUdpListeners st ps).alloc = st.alloc := by
  induction ps generalizing st with
  | nil => simp [addUdpListeners]
  | cons p rest ih =>
    have h := ih (addMessageListener
      { st with nextListenerId := st.nextListenerId + 1 }
      (some ⟨st.nextListenerId, qstringToInt p⟩))
    simpa [addUdpListeners, addMessageListener, Nat.add_assoc, Nat.add_comm 1]
      using h

/-- Claim C10: setProperties registers exactly one MessageListener per entry
of the messageFeedUdpPorts list — the bound-port projection of the listener
list grows by exactly the integer conversions of the entries (a non-numeric
entry contributing port 0, not being skipped), and one signal connection is
added per entry. -/
theorem listener_per_port_entry (st : ControllerState) (props : Properties) :
    (setProperties st props).messageListeners.map MessageListener.boundPort
      = st.messageListeners.map MessageListener.boundPort
        ++ props.messageFeedUdpPorts.map qstringToInt
    ∧ (setProperties st props).messageListeners.length
      = st.messageListeners.length + props.messageFeedUdpPorts.length
    ∧ (setProperties st props).connections.length
      = st.connections.length + props.messageFeedUdpPorts.length := by
  have hfinal : (setProperties st props).messageListeners
        = (addFeeds (addUdpListeners (setResourcePath st props.resourceDirectory)
            props.messageFeedUdpPorts) props.messageFeeds).messageListeners
      ∧ (setProperties st props).connections
        = (addFeeds (addUdpListeners (setResourcePath st props.resourceDirectory)
            props.messageFeedUdpPorts) props.messageFeeds).connections := by
    unfold setProperties
    cases hcfg : props.locationBroadcastConfig with
    | nil => exact ⟨rfl, rfl⟩
    | cons x tail =>
      cases tail with
      | nil => exact ⟨rfl, rfl⟩
      | cons y tail2 =>
        cases tail2 with
        | nil => exact ⟨rfl, rfl⟩
        | cons z tail3 => exact ⟨rfl, rfl⟩
  obtain ⟨hml, hcn⟩ := hfinal
  have hsr := setResourcePath_frame st props.resourceDirectory
  have hudp := addUdpListeners_shape props.messageFeedUdpPorts
    (setResourcePath st props.resourceDirectory)
  have haf := addFeeds_frame props.messageFeeds
    (addUdpListeners (setResourcePath st props.resourceDirectory)
      props.messageFeedUdpPorts)
  refine ⟨?_, ?_, ?_⟩
  · rw [hml, haf.1, hudp.1, hsr.1]
  · have := congrArg List.length (hudp.1)
    rw [hml, haf.1]
    simpa [hsr.1] using this
  · rw [hcn, haf.2.1, hudp.2.1, hsr.2.1]

/-- Claim C5: a locationBroadcastConfig whose length is not exactly 2 leaves
the broadcast's message type and port unchanged; one of exactly two elements
sets the message type to the first element and the port to the integer
conversion of the second. -/
theorem broadcast_config_arity (st : ControllerState) (props : Properties) :
    (props.locationBroadcastConfig.length ≠ 2 →
      (setProperties st props).locationBroadcast.messageType
          = st.locationBroadcast.messageType
      ∧ (setProperties st props).locationBroadcast.udpPort
          = st.locationBroadcast.udpPort)
    ∧ (∀ a b, props.locationBroadcastConfig = [a, b] →
      (setProperties st props).locationBroadcast.messageType = a
      ∧ (setProperties st props).locationBroadcast.udpPort = qstringToInt b) := by
  have hpres : (addFeeds (addUdpListeners (setResourcePath st props.resourceDirectory)
        props.messageFeedUdpPorts) props.messageFeeds).locationBroadcast
      = st.locationBroadcast := by
    rw [(addFeeds_frame props.messageFeeds _).2.2.1,
        (addUdpListeners_shape props.messageFeedUdpPorts _).2.2.2.1,
        (setResourcePath_frame st props.resourceDirectory).2.2.2.1]
  constructor
  · intro hlen
    cases hcfg : props.locationBroadcastConfig with
    | nil => unfold setProperties; rw [hcfg]; simp [hpres]
    | cons x tail =>
      cases tail with
      | nil => unfold setProperties; rw [hcfg]; simp [hpres]
      | cons y tail2 =>
        cases tail2 with
        | nil => exact absurd (by rw [hcfg]; rfl) hlen
        | cons z tail3 => unfold setProperties; rw [hcfg]; simp [hpres]
  · intro a b hcfg
    unfold setProperties
    rw [hcfg]
    simp [hpres]

/-- Concrete configuration with a malformed (1-element) broadcast config. -/
def propsBadW : Properties := ⟨"", [], [], ["position"]⟩

/-- Concrete configuration with a well-formed 2-element broadcast config. -/
def propsGoodW : Properties := ⟨"", [], [], ["position", "45679"]⟩

/-- Claim C5 witness: the 1-element config leaves the broadcast type and
port unchanged on a concrete state; the 2-element config sets both. -/
theorem broadcast_config_arity_witness :
    (propsBadW.locationBroadcastConfig.length ≠ 2
      ∧ ((setProperties initState propsBadW).locationBroadcast.messageType
            = initState.locationBroadcast.messageType
        ∧ (setProperties initState propsBadW).locationBroadcast.udpPort
            = initState.locationBroadcast.udpPort))
    ∧ (propsGoodW.locationBroadcastConfig = ["position", "45679"]
      ∧ ((setProperties initState propsGoodW).locationBroadcast.messageType
            = "position"
        ∧ (setProperties initState propsGoodW).locationBroadcast.udpPort
            = qstringToInt "45679")) :=
  ⟨⟨by decide, (broadcast_config_arity initState propsBadW).1 (by decide)⟩,
    ⟨rfl, (broadcast_config_arity initState propsGoodW).2 "position" "45679" rfl⟩⟩

end DSA
